import Mathlib

/-!
Shallow embedding of the flow-construction logic of
`atomate2/common/flows/eos.py` (`CommonEosMaker.make`) and
`atomate2/common/flows/gruneisen.py` (`BaseGruneisenMaker.make`).

Flow construction never executes a job: every value a job consumes from a
prior job is a symbolic reference (job id plus attribute-projection
path). Real numbers manipulated during construction (strains,
deformation matrices) are modelled with exact rationals; the `1e-15`
zero tolerance of the source is kept verbatim.
-/

namespace Atomate2

/-- A symbolic argument passed to a job at construction time: the
caller's raw input structure, the caller's `prev_dir`, Python `None`, or
a projection from a previously constructed job's not-yet-computed
output. -/
inductive Arg where
  | rawStructure
  | rawPrevDir
  | noneArg
  | ref (jobId : Nat) (path : List String)
deriving DecidableEq, Repr

/-- A symbolic reference into the future output of the job with the
given construction-order id, along the given attribute path. -/
structure RefV where
  jobId : Nat
  path : List String
deriving DecidableEq, Repr

/-- Python dict item assignment on an assoc list (dict keys are unique):
replace the value at the key in place if the key exists, append the new
pair at the end otherwise. -/
def setKeyAssoc {β : Type} : List (String × β) → String → β → List (String × β)
  | [], k, v => [(k, v)]
  | p :: ps, k, v => if p.1 == k then (k, v) :: ps else p :: setKeyAssoc ps k v

/-- Lookup of a key in an insertion-ordered dict. -/
def lookupEntry {β : Type} (entries : List (String × β)) (k : String) : Option β :=
  (entries.find? (fun p => p.1 == k)).map (·.2)

/-- Model of `np.linspace a b n`: `n` evenly spaced samples from `a` to `b`
inclusive; for `n = 1` numpy returns `[a]`, which the formula also gives
(the `i = 0` term is `a`). -/
def linspaceList (a b : ℚ) (n : Nat) : List ℚ :=
  (List.range n).map fun i : Nat => a + (b - a) * (i : ℚ) / ((n : ℚ) - 1)

/-- The `retstep` value of `np.linspace a b n`. -/
def strainStep (a b : ℚ) (n : Nat) : ℚ := (b - a) / ((n : ℚ) - 1)

/-- The zero-strain tolerance `1e-15` of `eos.py`. -/
def tolZero : ℚ := 1 / 10 ^ 15

/-- The mask `np.abs(strain_l) < 1e-15`. -/
def isZeroStrain (x : ℚ) : Bool := decide (|x| < tolZero)

/-- Masked elementwise addition `strain_l[mask] += shift`: each element
satisfying the mask receives the next shift, in order. -/
def applyShifts : List ℚ → List ℚ → List ℚ
  | [], _ => []
  | x :: xs, shifts =>
    if isZeroStrain x then
      match shifts with
      | [] => x :: applyShifts xs []
      | s :: rest => (x + s) :: applyShifts xs rest
    else
      x :: applyShifts xs shifts

/-- Lines 130-137 of `eos.py`: if any strain sample is zero within
tolerance, add `delta / (nzs + 1) * linspace(-1, 1, nzs)` to the masked
samples. -/
def perturbZeroStrains (strains : List ℚ) (delta : ℚ) : List ℚ :=
  let nzs := (strains.filter isZeroStrain).length
  if nzs = 0 then strains
  else
    let shifts := (linspaceList (-1) 1 nzs).map fun t => delta / ((nzs : ℚ) + 1) * t
    applyShifts strains shifts

/-- Line 139 of `eos.py`: `(np.identity(3) * (1 + eps)).tolist()`. -/
def deformationMatrix (eps : ℚ) : List (List ℚ) :=
  [[1 + eps, 0, 0], [0, 1 + eps, 0], [0, 0, 1 + eps]]

/-- An injected calculator Maker, as the flow builder observes it: a
base job name, the optional `.jobs` attribute of the object its `make`
returns (absent, or the number of sub-jobs), and the optional
`write_additional_data` dict attribute. -/
structure MakerCfg where
  makerName : String
  subJobCount : Option Nat := Option.none
  write_additional_data : Option (List (String × RefV)) := Option.none
deriving DecidableEq, Repr

/-- An EOS post-processor capability: its class name and its declared
minimum number of data points. -/
structure EOSPostProcessor where
  typeName : String
  min_data_points : Nat
deriving DecidableEq, Repr

/-- The `CommonEosMaker` dataclass configuration. The default
postprocessor mirrors `PostProcessEosEnergy` (declared in
`atomate2.common.jobs.eos`, outside this repository snapshot; its
`min_data_points = 4` is taken from that class's interface). -/
structure CommonEosMaker where
  name : String := "EOS Maker"
  initial_relax_maker : Option MakerCfg := Option.none
  eos_relax_maker : MakerCfg := { makerName := "EOS relax" }
  static_maker : Option MakerCfg := Option.none
  linear_strain : ℚ × ℚ := (-(1 / 20), 1 / 20)
  number_of_frames : Nat := 6
  postprocessor : Option EOSPostProcessor :=
    Option.some { typeName := "PostProcessEosEnergy", min_data_points := 4 }
  store_transformation_information : Bool := false
deriving DecidableEq, Repr

/-- A job node of the constructed EOS flow, identified by its
construction-order id. -/
inductive EosJob where
  | makerJob (id : Nat) (jobName : String) (structArg : Arg) (prevDirArg : Arg)
  | transformations (id : Nat) (structArg : Arg) (deformations : List (List (List ℚ)))
  | postprocess (id : Nat) (jobName : String)
deriving DecidableEq, Repr

/-- Construction-order id of an EOS job node. -/
def EosJob.jobId : EosJob → Nat
  | .makerJob i _ _ _ => i
  | .transformations i _ _ => i
  | .postprocess i _ => i

/-- Name of an EOS job node. -/
def EosJob.nameOf : EosJob → String
  | .makerJob _ n _ _ => n
  | .transformations _ _ _ => "apply strain to structure"
  | .postprocess _ n => n

/-- The five parallel per-quantity sequences collected under one
job-type key of `flow_output` (Python dict keys `energy`, `volume`,
`stress`, `structure`, `dir_name`). -/
structure QuantitySeqs where
  energy : List RefV
  volume : List RefV
  stress : List RefV
  «structure» : List RefV
  dir_name : List RefV
deriving DecidableEq, Repr

/-- The `{"E0": ..., "V0": ...}` pair recorded for `initial_relax` and
`initial_static`. -/
structure EqScalars where
  E0 : RefV
  V0 : RefV
deriving DecidableEq, Repr

/-- A value of the EOS `flow_output` dict: either the five parallel
quantity sequences, or the two-scalar `E0`/`V0` record. -/
inductive EosOutEntryVal where
  | quantities (q : QuantitySeqs)
  | scalars (s : EqScalars)
deriving DecidableEq, Repr

/-- The flow's final symbolic output: the aggregated mapping, or (when a
postprocessor replaced it) a reference to the postprocessing job's
output. -/
inductive EosOutput where
  | mapping (entries : List (String × EosOutEntryVal))
  | jobRef (r : RefV)
deriving DecidableEq, Repr

/-- Lines 178-186 of `eos.py`: the five parallel quantity sequences
collected, in job order, from the jobs with the given ids. -/
def quantitySeqs (ids : List Nat) : QuantitySeqs :=
  { energy := ids.map fun j => RefV.mk j ["output", "output", "energy"],
    volume := ids.map fun j => RefV.mk j ["output", "output", "structure", "volume"],
    stress := ids.map fun j => RefV.mk j ["output", "output", "stress"],
    «structure» := ids.map fun j => RefV.mk j ["output", "output", "structure"],
    dir_name := ids.map fun j => RefV.mk j ["output", "dir_name"] }

/-- State after the optional equilibrium-relaxation stage (lines 91-121
of `eos.py`). -/
structure EosInitState where
  relaxJobs : List EosJob
  staticJobs : List EosJob
  structArg : Arg
  prevDirArg : Arg
  decorated : Bool
  initEntries : List (String × EosOutEntryVal)
  counter : Nat
deriving DecidableEq, Repr

/-- Lines 91-121 of `eos.py`: optionally build the equilibrium
relaxation (and equilibrium static), recording `initial_relax` /
`initial_static` as `E0`/`V0` scalars and rebinding the working
structure and `prev_dir` to the relaxation's symbolic outputs. The
sub-job renaming is attempted only when the returned object exposes
`.jobs` (the `AttributeError` is swallowed otherwise). -/
def eosInitStage (self : CommonEosMaker) (prevDirArg : Arg) : EosInitState :=
  match self.initial_relax_maker with
  | Option.none =>
    { relaxJobs := [], staticJobs := [], structArg := Arg.rawStructure,
      prevDirArg := prevDirArg, decorated := false, initEntries := [], counter := 0 }
  | Option.some m =>
    let relaxFlow := EosJob.makerJob 0 "EOS equilibrium relaxation" Arg.rawStructure prevDirArg
    let decorated :=
      match m.subJobCount with
      | Option.none => false
      | Option.some k => decide (1 < k)
    let initEntries : List (String × EosOutEntryVal) :=
      [("initial_relax", EosOutEntryVal.scalars
        { E0 := RefV.mk 0 ["output", "output", "energy"],
          V0 := RefV.mk 0 ["output", "structure", "volume"] })]
    match self.static_maker with
    | Option.none =>
      { relaxJobs := [relaxFlow], staticJobs := [],
        structArg := Arg.ref 0 ["output", "structure"],
        prevDirArg := Arg.ref 0 ["output", "dir_name"],
        decorated := decorated, initEntries := initEntries, counter := 1 }
    | Option.some _ =>
      let equilStatic := EosJob.makerJob 1 "EOS equilibrium static"
        (Arg.ref 0 ["output", "structure"]) (Arg.ref 0 ["output", "dir_name"])
      { relaxJobs := [relaxFlow], staticJobs := [equilStatic],
        structArg := Arg.ref 0 ["output", "structure"],
        prevDirArg := Arg.ref 0 ["output", "dir_name"],
        decorated := decorated,
        initEntries := initEntries ++
          [("initial_static", EosOutEntryVal.scalars
            { E0 := RefV.mk 1 ["output", "output", "energy"],
              V0 := RefV.mk 1 ["output", "structure", "volume"] })],
        counter := 2 }

/-- Lines 145-176 of `eos.py`: the per-frame loop. Arguments: base relax
name, optional static maker, `_store_transformation_information`, the
transformation job's id, the working `prev_dir`, the current frame
index, remaining frames, the next fresh job id, and the relax maker's
current `write_additional_data` attribute. Returns the relax jobs, the
static jobs, the final `write_additional_data`, and the next id. -/
def buildFrames (relaxName : String) (staticMaker : Option MakerCfg)
    (store : Bool) (transId : Nat) (prevDirArg : Arg) :
    Nat → Nat → Nat → Option (List (String × RefV)) →
      List EosJob × List EosJob × Option (List (String × RefV)) × Nat
  | _, 0, c, wad => ([], [], wad, c)
  | i, r + 1, c, wad =>
    let wad1 :=
      if store then
        match wad with
        | Option.none => Option.none
        | Option.some entries =>
          Option.some (setKeyAssoc entries "transformations:json"
            (RefV.mk transId ["output", toString i]))
      else wad
    let relaxJob := EosJob.makerJob c (relaxName ++ " deformation " ++ toString i)
      (Arg.ref transId ["output", toString i, "final_structure"]) prevDirArg
    match staticMaker with
    | Option.none =>
      let rest := buildFrames relaxName Option.none store transId prevDirArg (i + 1) r (c + 1) wad1
      (relaxJob :: rest.1, rest.2.1, rest.2.2.1, rest.2.2.2)
    | Option.some sm =>
      let staticJob := EosJob.makerJob (c + 1) (sm.makerName ++ " " ++ toString i)
        (Arg.ref c ["output", "structure"]) (Arg.ref c ["output", "dir_name"])
      let rest := buildFrames relaxName (Option.some sm) store transId prevDirArg
        (i + 1) r (c + 2) wad1
      (relaxJob :: rest.1, staticJob :: rest.2.1, rest.2.2.1, rest.2.2.2)

/-- Everything `CommonEosMaker.make` assembles before the postprocessor
check: job lists, the transformation job, the aggregated output
entries, the decoration flag, the relax maker's post-call state, and
the next fresh job id. -/
structure EosAssembly where
  relaxJobs : List EosJob
  staticJobs : List EosJob
  transJob : EosJob
  outputEntries : List (String × EosOutEntryVal)
  decorated : Bool
  makerAfter : MakerCfg
  counter : Nat
deriving DecidableEq, Repr

/-- Lines 123-137 of `eos.py`: the strain samples actually used to build
the deformations: `np.linspace` over `linear_strain`, with the
zero-sample perturbation applied when an initial relaxation is
configured. -/
def CommonEosMaker.strainSamples (self : CommonEosMaker) : List ℚ :=
  let strain0 :=
    linspaceList self.linear_strain.1 self.linear_strain.2 self.number_of_frames
  if self.initial_relax_maker.isSome then
    perturbZeroStrains strain0
      (strainStep self.linear_strain.1 self.linear_strain.2 self.number_of_frames)
  else strain0

/-- Lines 78-186 of `eos.py`: the flow assembly up to (not including)
the postprocessor stage. -/
def eosAssemble (self : CommonEosMaker) (prevDirArg : Arg) : EosAssembly :=
  let N := self.number_of_frames
  let st := eosInitStage self prevDirArg
  let deformations := self.strainSamples.map deformationMatrix
  let transJob := EosJob.transformations st.counter st.structArg deformations
  let frames := buildFrames self.eos_relax_maker.makerName self.static_maker
    self.store_transformation_information st.counter st.prevDirArg 0 N (st.counter + 1)
    self.eos_relax_maker.write_additional_data
  let relaxJobs := st.relaxJobs ++ frames.1
  let staticJobs := st.staticJobs ++ frames.2.1
  let outputEntries :=
    [("relax", EosOutEntryVal.quantities (quantitySeqs (relaxJobs.map EosJob.jobId)))] ++
    (match self.static_maker with
     | Option.some _ =>
       [("static", EosOutEntryVal.quantities (quantitySeqs (staticJobs.map EosJob.jobId)))]
     | Option.none => []) ++ st.initEntries
  { relaxJobs := relaxJobs, staticJobs := staticJobs, transJob := transJob,
    outputEntries := outputEntries, decorated := st.decorated,
    makerAfter :=
      { self.eos_relax_maker with write_additional_data := frames.2.2.1 },
    counter := frames.2.2.2 }

/-- The aggregated flow output mapping (lines 83-89, 104-120 and 178-186
of `eos.py`): what `flow_output` holds just before the postprocessor
stage. -/
def CommonEosMaker.aggregatedOutput (self : CommonEosMaker) (prevDirArg : Arg) :
    List (String × EosOutEntryVal) :=
  (eosAssemble self prevDirArg).outputEntries

/-- The constructed EOS flow. `equilSubNamesDecorated` records whether
the best-effort sub-job renaming of the equilibrium relaxation actually
ran (it is skipped without error when the maker's result has no `.jobs`
attribute). -/
structure EosFlow where
  flowName : String
  jobs : List EosJob
  output : EosOutput
  equilSubNamesDecorated : Bool
deriving DecidableEq, Repr

/-- Embedding of `CommonEosMaker.make` (lines 64-206 of `eos.py`). Returns the raised
`ValueError` message or the flow, paired with the builder's post-call
configuration (the in-place mutation of the relax maker's
`write_additional_data` survives even when the error is raised). -/
def CommonEosMaker.make (self : CommonEosMaker) (prevDirArg : Arg) :
    Except String EosFlow × CommonEosMaker :=
  let asm := eosAssemble self prevDirArg
  let selfAfter := { self with eos_relax_maker := asm.makerAfter }
  match self.postprocessor with
  | Option.none =>
    (Except.ok { flowName := self.name,
                 jobs := asm.relaxJobs ++ asm.staticJobs ++ [asm.transJob],
                 output := EosOutput.mapping asm.outputEntries,
                 equilSubNamesDecorated := asm.decorated }, selfAfter)
  | Option.some pp =>
    if asm.relaxJobs.length < pp.min_data_points then
      (Except.error ("To perform least squares EOS fit with " ++ pp.typeName ++
        ", you must specify self.number_of_frames >= " ++
        toString pp.min_data_points ++ "."), selfAfter)
    else
      let postJob := EosJob.postprocess asm.counter (self.name ++ " postprocessing")
      (Except.ok { flowName := self.name,
                   jobs := asm.relaxJobs ++ asm.staticJobs ++ [asm.transJob, postJob],
                   output := EosOutput.jobRef (RefV.mk asm.counter ["output"]),
                   equilSubNamesDecorated := asm.decorated }, selfAfter)

/-! ## Grueneisen flow builder (`gruneisen.py`) -/

/-- A sub-job of the flow a phonon Maker returns, as the Grueneisen
builder observes it: its mutable `function_kwargs` dict, or `none` when
that attribute is Python `None`. -/
structure GruSubJob where
  function_kwargs : Option (List (String × String))
deriving DecidableEq, Repr

/-- A phonon Maker: base name, plus the `.jobs` attribute of the object
its `make` returns (`none` when the attribute is absent). -/
structure PhononMakerCfg where
  makerName : String
  subJobs : Option (List GruSubJob)
deriving DecidableEq, Repr

/-- A relax Maker injected into the Grueneisen builder (only its name is
observable during construction). -/
structure GMakerCfg where
  makerName : String
deriving DecidableEq, Repr

/-- The `BaseGruneisenMaker` dataclass configuration. -/
structure BaseGruneisenMaker where
  name : String := "Gruneisen"
  bulk_relax_maker : Option GMakerCfg := Option.none
  code : String := ""
  const_vol_relax_maker : GMakerCfg
  kpath_scheme : String := "seekpath"
  phonon_maker : PhononMakerCfg
  perc_vol : ℚ := 1 / 100
  mesh : Nat × Nat × Nat := (20, 20, 20)
  compute_gruneisen_param_kwargs : List (String × String) := []
  symprec : ℚ := 1 / 10 ^ 4
deriving DecidableEq, Repr

/-- A job node of the constructed Grueneisen flow. The phonon node
stores its branch key and its sub-jobs after the in-place
`function_kwargs.update(...)`. -/
inductive GruJob where
  | bulkRelax (id : Nat) (makerName : String) (structArg : Arg)
  | shrinkExpand (id : Nat) (structArg : Arg) (perc_vol : ℚ)
  | constVolRelax (id : Nat) (makerName : String) (structArg : Arg)
  | phonon (id : Nat) (makerName : String) (branch : String) (structArg : Arg)
      (subJobs : List GruSubJob)
  | gruExtract (id : Nat) (code : String) (kpath_scheme : String)
      (mesh : Nat × Nat × Nat) (phonopy_yaml_paths_dict : List (String × RefV))
      (structArg : Arg) (symprec : ℚ)
      (phonon_imaginary_modes_info : List (String × RefV))
      (extraKwargs : List (String × String))
deriving DecidableEq, Repr

/-- Construction-order id of a Grueneisen job node. -/
def GruJob.jobId : GruJob → Nat
  | .bulkRelax i _ _ => i
  | .shrinkExpand i _ _ => i
  | .constVolRelax i _ _ => i
  | .phonon i _ _ _ _ => i
  | .gruExtract i _ _ _ _ _ _ _ _ => i

/-- An exception escaping `BaseGruneisenMaker.make` during flow
construction. -/
inductive GruError where
  | nameError (varName : String)
  | attributeError (attr : String)
  | indexError
deriving DecidableEq, Repr

/-- The constructed Grueneisen flow (`Flow(jobs, output=get_gru.output)`
with jobflow's default flow name). -/
structure GruFlow where
  jobs : List GruJob
  output : RefV
deriving DecidableEq, Repr

/-- Lines 148-154 of `gruneisen.py`:
`phonon_job.jobs[-1].function_kwargs.update(filename_... = f"{st}_...")`.
Fails with `AttributeError` when the phonon job exposes no `.jobs`,
`IndexError` when that list is empty, and `AttributeError` again when
the last sub-job's `function_kwargs` is `None`; no exception is
suppressed. On success, returns the sub-job list with the last
element's kwargs updated. -/
def updatePhononFilenames (branch : String) (pm : PhononMakerCfg) :
    Except GruError (List GruSubJob) :=
  match pm.subJobs with
  | Option.none => Except.error (GruError.attributeError "jobs")
  | Option.some subs =>
    match subs.getLast? with
    | Option.none => Except.error GruError.indexError
    | Option.some lastSub =>
      match lastSub.function_kwargs with
      | Option.none => Except.error (GruError.attributeError "function_kwargs")
      | Option.some kwargs =>
        let kwargs1 := setKeyAssoc kwargs "filename_phonopy_yaml" (branch ++ "_phonopy.yaml")
        let kwargs2 := setKeyAssoc kwargs1 "filename_band_yaml"
          (branch ++ "_phonon_band_structure.yaml")
        let kwargs3 := setKeyAssoc kwargs2 "filename_dos_yaml" (branch ++ "_phonon_dos.yaml")
        let kwargs4 := setKeyAssoc kwargs3 "filename_bs" (branch ++ "_phonon_band_structure.pdf")
        let kwargs5 := setKeyAssoc kwargs4 "filename_dos" (branch ++ "_phonon_dos.pdf")
        Except.ok (subs.dropLast ++ [{ function_kwargs := Option.some kwargs5 }])

/-- Embedding of `BaseGruneisenMaker.make` (lines 83-174 of `gruneisen.py`). The
`shrink_expand_structure` call reads `bulk.output.structure`
unconditionally, so when `bulk_relax_maker` is `None` the local
variable `bulk` was never assigned and Python raises `NameError`
(the `else` branch's `opt_struct["ground"] = structure` is never
consumed by that call). -/
def BaseGruneisenMaker.make (self : BaseGruneisenMaker) : Except GruError GruFlow :=
  match self.bulk_relax_maker with
  | Option.none => Except.error (GruError.nameError "bulk")
  | Option.some bm => do
    let bulk := GruJob.bulkRelax 0 bm.makerName Arg.rawStructure
    let groundArg := Arg.ref 0 ["output", "structure"]
    let structDict := GruJob.shrinkExpand 1 (Arg.ref 0 ["output", "structure"]) self.perc_vol
    let constVolPlus := GruJob.constVolRelax 2 self.const_vol_relax_maker.makerName
      (Arg.ref 1 ["output", "plus"])
    let constVolMinus := GruJob.constVolRelax 3 self.const_vol_relax_maker.makerName
      (Arg.ref 1 ["output", "minus"])
    let optStruct : List (String × Arg) :=
      [("ground", groundArg),
       ("plus", Arg.ref 2 ["output", "structure"]),
       ("minus", Arg.ref 3 ["output", "structure"])]
    let groundSubs ← updatePhononFilenames "ground" self.phonon_maker
    let plusSubs ← updatePhononFilenames "plus" self.phonon_maker
    let minusSubs ← updatePhononFilenames "minus" self.phonon_maker
    let phononGround := GruJob.phonon 4 self.phonon_maker.makerName "ground"
      (Arg.ref 0 ["output", "structure"]) groundSubs
    let phononPlus := GruJob.phonon 5 self.phonon_maker.makerName "plus"
      (Arg.ref 2 ["output", "structure"]) plusSubs
    let phononMinus := GruJob.phonon 6 self.phonon_maker.makerName "minus"
      (Arg.ref 3 ["output", "structure"]) minusSubs
    let phononYamlDirs : List (String × RefV) :=
      [("ground", RefV.mk 4 ["output", "jobdirs", "taskdoc_run_job_dir"]),
       ("plus", RefV.mk 5 ["output", "jobdirs", "taskdoc_run_job_dir"]),
       ("minus", RefV.mk 6 ["output", "jobdirs", "taskdoc_run_job_dir"])]
    let phononImaginaryModes : List (String × RefV) :=
      [("ground", RefV.mk 4 ["output", "has_imaginary_modes"]),
       ("plus", RefV.mk 5 ["output", "has_imaginary_modes"]),
       ("minus", RefV.mk 6 ["output", "has_imaginary_modes"])]
    let getGru := GruJob.gruExtract 7 self.code self.kpath_scheme self.mesh
      phononYamlDirs ((lookupEntry optStruct "ground").getD Arg.noneArg) self.symprec
      phononImaginaryModes self.compute_gruneisen_param_kwargs
    Except.ok
      { jobs := [bulk, structDict, constVolPlus, constVolMinus,
                 phononGround, phononPlus, phononMinus, getGru],
        output := RefV.mk 7 ["output"] }

/-! ## Observation helpers and concrete configurations -/

/-- Whether an EOS job node is a calculator (Maker-built) job. -/
def EosJob.isMakerJob : EosJob → Bool
  | .makerJob _ _ _ _ => true
  | _ => false

/-- A readable kind tag for a Grueneisen job node. -/
def GruJob.kindTag : GruJob → String
  | .bulkRelax _ _ _ => "bulk_relax"
  | .shrinkExpand _ _ _ => "shrink_expand"
  | .constVolRelax _ _ _ => "const_vol_relax"
  | .phonon _ _ _ _ _ => "phonon"
  | .gruExtract _ _ _ _ _ _ _ _ _ => "extract"

/-- The branch key of a phonon job node, `none` for other nodes. -/
def GruJob.phononBranch : GruJob → Option String
  | .phonon _ _ branch _ _ => Option.some branch
  | _ => Option.none

/-- The `function_kwargs` of the last sub-job of a phonon job node. -/
def GruJob.phononLastKwargs : GruJob → Option (List (String × String))
  | .phonon _ _ _ _ subs =>
    match subs.getLast? with
    | Option.some lastSub => lastSub.function_kwargs
    | Option.none => Option.none
  | _ => Option.none

/-- Whether a phonon Maker's result fails to expose a non-empty `.jobs`
sequence whose last element carries a mutable `function_kwargs`. -/
def PhononMakerCfg.lacksMutableKwargs (pm : PhononMakerCfg) : Bool :=
  match pm.subJobs with
  | Option.none => true
  | Option.some subs =>
    match subs.getLast? with
    | Option.none => true
    | Option.some lastSub => lastSub.function_kwargs.isNone

/-- The 3x3 identity scaled by `1 + eps`, written from the spec's words
("the 3x3 identity scaled by (1 + strain)") to compare against the
deformation matrices the code builds. -/
def identityScaledBy (eps : ℚ) : List (List ℚ) :=
  (List.range 3).map fun r => (List.range 3).map fun c => if r = c then 1 + eps else 0

/-! ## Concrete configurations used in the claim analyses -/

/-- A fully configured Grueneisen builder except for the bulk-relaxation
Maker, which is absent. -/
def gruCfgNoBulk : BaseGruneisenMaker :=
  { bulk_relax_maker := Option.none,
    const_vol_relax_maker := { makerName := "const vol relax" },
    phonon_maker :=
      { makerName := "phonon",
        subJobs := Option.some [{ function_kwargs := Option.some [] }] } }

/-- A fully configured Grueneisen builder. -/
def gruCfgFull : BaseGruneisenMaker :=
  { bulk_relax_maker := Option.some { makerName := "bulk relax" },
    const_vol_relax_maker := { makerName := "const vol relax" },
    phonon_maker :=
      { makerName := "phonon",
        subJobs := Option.some [{ function_kwargs := Option.some [] }] } }

/-- A Grueneisen builder whose phonon Maker's flow exposes `.jobs` whose
last element has `function_kwargs = None`. -/
def gruCfgBadPhonon : BaseGruneisenMaker :=
  { bulk_relax_maker := Option.some { makerName := "bulk relax" },
    const_vol_relax_maker := { makerName := "const vol relax" },
    phonon_maker :=
      { makerName := "phonon",
        subJobs := Option.some [{ function_kwargs := Option.none }] } }

/-- EOS builder with an equilibrium relaxation, `number_of_frames = 3`
and a postprocessor requiring at least 4 data points. -/
def eosCfgC2 : CommonEosMaker :=
  { initial_relax_maker := Option.some { makerName := "equil relax" },
    eos_relax_maker := { makerName := "EOS relax" },
    static_maker := Option.none,
    linear_strain := (-(1 / 20), 1 / 20),
    number_of_frames := 3,
    postprocessor := Option.some { typeName := "PostProcessEosEnergy", min_data_points := 4 },
    store_transformation_information := false }

/-- EOS builder with all optional stages except the postprocessor. -/
def eosCfgC3 : CommonEosMaker :=
  { initial_relax_maker := Option.some { makerName := "equil relax" },
    eos_relax_maker := { makerName := "EOS relax" },
    static_maker := Option.some { makerName := "EOS static" },
    linear_strain := (-(1 / 20), 1 / 20),
    number_of_frames := 2,
    postprocessor := Option.none,
    store_transformation_information := false }

/-- EOS builder matching the spec's zero-strain-collision example:
`linear_strain = (-0.05, 0.05)`, five frames, initial relaxation
configured. -/
def eosCfgC4 : CommonEosMaker :=
  { initial_relax_maker := Option.some { makerName := "equil relax" },
    eos_relax_maker := { makerName := "EOS relax" },
    static_maker := Option.none,
    linear_strain := (-(1 / 20), 1 / 20),
    number_of_frames := 5,
    postprocessor := Option.none,
    store_transformation_information := false }

/-- EOS builder matching the spec's six-frame example: no initial
relaxation, no static maker. -/
def eosCfgC5 : CommonEosMaker :=
  { initial_relax_maker := Option.none,
    eos_relax_maker := { makerName := "EOS relax" },
    static_maker := Option.none,
    linear_strain := (-(1 / 20), 1 / 20),
    number_of_frames := 6,
    postprocessor := Option.none,
    store_transformation_information := false }

/-- EOS builder with an equilibrium relaxation and a static maker, used
to inspect the aggregated output's parallel sequences. -/
def eosCfgC6 : CommonEosMaker :=
  { initial_relax_maker := Option.some { makerName := "equil relax" },
    eos_relax_maker := { makerName := "EOS relax" },
    static_maker := Option.some { makerName := "EOS static" },
    linear_strain := (-(1 / 20), 1 / 20),
    number_of_frames := 2,
    postprocessor := Option.none,
    store_transformation_information := false }

/-- EOS builder with an equilibrium relaxation and a static maker, used
to inspect the aggregated output's `initial_relax` entry. -/
def eosCfgC7 : CommonEosMaker :=
  { initial_relax_maker := Option.some { makerName := "equil relax" },
    eos_relax_maker := { makerName := "EOS relax" },
    static_maker := Option.some { makerName := "EOS static" },
    linear_strain := (-(1 / 20), 1 / 20),
    number_of_frames := 2,
    postprocessor := Option.none,
    store_transformation_information := false }

/-- EOS builder with `_store_transformation_information = True` and a
relax maker exposing `write_additional_data`. -/
def eosCfgC9 : CommonEosMaker :=
  { initial_relax_maker := Option.none,
    eos_relax_maker := { makerName := "EOS relax", write_additional_data := Option.some [] },
    static_maker := Option.none,
    linear_strain := (-(1 / 20), 1 / 20),
    number_of_frames := 3,
    postprocessor := Option.none,
    store_transformation_information := true }

/-- EOS builder with `_store_transformation_information` left at its
default `False`. -/
def eosCfgC9w : CommonEosMaker :=
  { initial_relax_maker := Option.none,
    eos_relax_maker := { makerName := "EOS relax", write_additional_data := Option.some [] },
    static_maker := Option.none,
    linear_strain := (-(1 / 20), 1 / 20),
    number_of_frames := 2,
    postprocessor := Option.none,
    store_transformation_information := false }

/-- EOS builder whose equilibrium-relaxation maker returns a plain job
with no `.jobs` attribute. -/
def eosCfgC10 : CommonEosMaker :=
  { initial_relax_maker := Option.some { makerName := "equil relax", subJobCount := Option.none },
    eos_relax_maker := { makerName := "EOS relax" },
    static_maker := Option.none,
    linear_strain := (-(1 / 20), 1 / 20),
    number_of_frames := 2,
    postprocessor := Option.none,
    store_transformation_information := false }

/-! ## Structural lemmas -/

theorem applyShifts_length (l : List ℚ) :
    ∀ shifts : List ℚ, (applyShifts l shifts).length = l.length := by
  induction l with
  | nil => intro shifts; rfl
  | cons x xs ih =>
    intro shifts
    cases hb : isZeroStrain x with
    | false => simp [applyShifts, hb, ih]
    | true => cases shifts <;> simp [applyShifts, hb, ih]

theorem perturbZeroStrains_length (l : List ℚ) (d : ℚ) :
    (perturbZeroStrains l d).length = l.length := by
  by_cases h : (List.filter isZeroStrain l).length = 0
  · simp [perturbZeroStrains, h]
  · simp [perturbZeroStrains, h, applyShifts_length]

theorem linspaceList_length (a b : ℚ) (n : Nat) : (linspaceList a b n).length = n := by
  unfold linspaceList
  rw [List.length_map, List.length_range]

theorem strainSamples_length (cfg : CommonEosMaker) :
    cfg.strainSamples.length = cfg.number_of_frames := by
  unfold CommonEosMaker.strainSamples
  split
  · simp [perturbZeroStrains_length, linspaceList_length]
  · simp [linspaceList_length]

theorem buildFrames_relax_names (rn : String) (sm : Option MakerCfg) (store : Bool)
    (tid : Nat) (pd : Arg) :
    ∀ (r i c : Nat) (wad : Option (List (String × RefV))),
      (buildFrames rn sm store tid pd i r c wad).1.map EosJob.nameOf =
        (List.range' i r).map (fun k => rn ++ " deformation " ++ toString k) := by
  intro r
  induction r with
  | zero => intro i c wad; cases sm <;> rfl
  | succ n ih =>
    intro i c wad
    cases sm with
    | none => simp [buildFrames, EosJob.nameOf, List.range'_succ, ih]
    | some sm' => simp [buildFrames, EosJob.nameOf, List.range'_succ, ih]

theorem buildFrames_relax_length (rn : String) (sm : Option MakerCfg) (store : Bool)
    (tid : Nat) (pd : Arg) (r i c : Nat) (wad : Option (List (String × RefV))) :
    (buildFrames rn sm store tid pd i r c wad).1.length = r := by
  have h := congrArg List.length (buildFrames_relax_names rn sm store tid pd r i c wad)
  simpa using h

theorem buildFrames_static_none (rn : String) (store : Bool) (tid : Nat) (pd : Arg) :
    ∀ (r i c : Nat) (wad : Option (List (String × RefV))),
      (buildFrames rn Option.none store tid pd i r c wad).2.1 = [] := by
  intro r
  induction r with
  | zero => intro i c wad; rfl
  | succ n ih => intro i c wad; simp [buildFrames, ih]

theorem buildFrames_static_names (rn : String) (sm : MakerCfg) (store : Bool)
    (tid : Nat) (pd : Arg) :
    ∀ (r i c : Nat) (wad : Option (List (String × RefV))),
      (buildFrames rn (Option.some sm) store tid pd i r c wad).2.1.map EosJob.nameOf =
        (List.range' i r).map (fun k => sm.makerName ++ " " ++ toString k) := by
  intro r
  induction r with
  | zero => intro i c wad; rfl
  | succ n ih =>
    intro i c wad
    simp [buildFrames, EosJob.nameOf, List.range'_succ, ih]

theorem buildFrames_static_length (rn : String) (sm : MakerCfg) (store : Bool)
    (tid : Nat) (pd : Arg) (r i c : Nat) (wad : Option (List (String × RefV))) :
    (buildFrames rn (Option.some sm) store tid pd i r c wad).2.1.length = r := by
  have h := congrArg List.length (buildFrames_static_names rn sm store tid pd r i c wad)
  simpa using h

theorem buildFrames_wad_not_store (rn : String) (sm : Option MakerCfg)
    (tid : Nat) (pd : Arg) :
    ∀ (r i c : Nat) (wad : Option (List (String × RefV))),
      (buildFrames rn sm false tid pd i r c wad).2.2.1 = wad := by
  intro r
  induction r with
  | zero => intro i c wad; cases sm <;> rfl
  | succ n ih =>
    intro i c wad
    cases sm with
    | none => simp [buildFrames, ih]
    | some sm' => simp [buildFrames, ih]

theorem buildFrames_wad_none (rn : String) (sm : Option MakerCfg) (store : Bool)
    (tid : Nat) (pd : Arg) :
    ∀ (r i c : Nat),
      (buildFrames rn sm store tid pd i r c Option.none).2.2.1 = Option.none := by
  intro r
  induction r with
  | zero => intro i c; cases sm <;> rfl
  | succ n ih =>
    intro i c
    cases sm with
    | none => cases store <;> simp [buildFrames, ih]
    | some sm' => cases store <;> simp [buildFrames, ih]

theorem eosAssemble_relax_length (cfg : CommonEosMaker) (pd : Arg) :
    (eosAssemble cfg pd).relaxJobs.length =
      (if cfg.initial_relax_maker.isSome then 1 else 0) + cfg.number_of_frames := by
  unfold eosAssemble
  cases hin : cfg.initial_relax_maker with
  | none =>
    simp [eosInitStage, hin, buildFrames_relax_length]
  | some m =>
    cases hst : cfg.static_maker with
    | none =>
      simp [eosInitStage, hin, hst, buildFrames_relax_length]
      omega
    | some sm =>
      simp [eosInitStage, hin, hst, buildFrames_relax_length]
      omega

theorem lookup_setKeyAssoc_self {β : Type} (k : String) (v : β) :
    ∀ l : List (String × β), lookupEntry (setKeyAssoc l k v) k = Option.some v := by
  intro l
  induction l with
  | nil => simp [setKeyAssoc, lookupEntry]
  | cons p ps ih =>
    by_cases hp : (p.1 == k) = true
    · simp [setKeyAssoc, hp, lookupEntry]
    · have hp' : (p.1 == k) = false := by simpa using hp
      simpa [setKeyAssoc, hp', lookupEntry, List.find?_cons] using ih

theorem lookup_setKeyAssoc_other {β : Type} (k k' : String) (v : β)
    (hne : (k' == k) = false) :
    ∀ l : List (String × β), lookupEntry (setKeyAssoc l k v) k' = lookupEntry l k' := by
  have hkk' : (k == k') = false := by
    have h1 : k' ≠ k := by simpa using hne
    simpa using h1.symm
  intro l
  induction l with
  | nil => simp [setKeyAssoc, lookupEntry, List.find?_cons, hkk']
  | cons p ps ih =>
    by_cases hp : (p.1 == k) = true
    · have hp1 : p.1 = k := by simpa using hp
      have hpk' : (p.1 == k') = false := by rw [hp1]; exact hkk'
      simp [setKeyAssoc, hp, lookupEntry, List.find?_cons, hpk', hkk']
    · have hp' : (p.1 == k) = false := by simpa using hp
      by_cases hpk' : (p.1 == k') = true
      · simp [setKeyAssoc, hp', lookupEntry, List.find?_cons, hpk']
      · have hpk'' : (p.1 == k') = false := by simpa using hpk'
        simpa [setKeyAssoc, hp', lookupEntry, List.find?_cons, hpk''] using ih

theorem updatePhononFilenames_ok (branch : String) (pm : PhononMakerCfg)
    (subs : List GruSubJob) (lastSub : GruSubJob) (kw : List (String × String))
    (h1 : pm.subJobs = Option.some subs) (h2 : subs.getLast? = Option.some lastSub)
    (h3 : lastSub.function_kwargs = Option.some kw) :
    ∃ kw5, updatePhononFilenames branch pm =
        Except.ok (subs.dropLast ++ [{ function_kwargs := Option.some kw5 }]) ∧
      lookupEntry kw5 "filename_phonopy_yaml" = Option.some (branch ++ "_phonopy.yaml") ∧
      lookupEntry kw5 "filename_band_yaml" =
        Option.some (branch ++ "_phonon_band_structure.yaml") ∧
      lookupEntry kw5 "filename_dos_yaml" = Option.some (branch ++ "_phonon_dos.yaml") ∧
      lookupEntry kw5 "filename_bs" = Option.some (branch ++ "_phonon_band_structure.pdf") ∧
      lookupEntry kw5 "filename_dos" = Option.some (branch ++ "_phonon_dos.pdf") := by
  unfold updatePhononFilenames
  simp only [h1, h2, h3]
  refine ⟨_, rfl, ?_, ?_, ?_, ?_, ?_⟩
  · rw [lookup_setKeyAssoc_other _ _ _ (by decide), lookup_setKeyAssoc_other _ _ _ (by decide),
      lookup_setKeyAssoc_other _ _ _ (by decide), lookup_setKeyAssoc_other _ _ _ (by decide),
      lookup_setKeyAssoc_self]
  · rw [lookup_setKeyAssoc_other _ _ _ (by decide), lookup_setKeyAssoc_other _ _ _ (by decide),
      lookup_setKeyAssoc_other _ _ _ (by decide), lookup_setKeyAssoc_self]
  · rw [lookup_setKeyAssoc_other _ _ _ (by decide), lookup_setKeyAssoc_other _ _ _ (by decide),
      lookup_setKeyAssoc_self]
  · rw [lookup_setKeyAssoc_other _ _ _ (by decide), lookup_setKeyAssoc_self]
  · rw [lookup_setKeyAssoc_self]

theorem updatePhononFilenames_error (branch : String) (pm : PhononMakerCfg)
    (h : pm.lacksMutableKwargs = true) :
    ∃ e, updatePhononFilenames branch pm = Except.error e := by
  unfold PhononMakerCfg.lacksMutableKwargs at h
  cases hs : pm.subJobs with
  | none =>
    refine ⟨GruError.attributeError "jobs", ?_⟩
    unfold updatePhononFilenames
    simp only [hs]
  | some subs =>
    simp only [hs] at h
    cases hl : subs.getLast? with
    | none =>
      refine ⟨GruError.indexError, ?_⟩
      unfold updatePhononFilenames
      simp only [hs, hl]
    | some lastSub =>
      simp only [hl] at h
      cases hk : lastSub.function_kwargs with
      | none =>
        refine ⟨GruError.attributeError "function_kwargs", ?_⟩
        unfold updatePhononFilenames
        simp only [hs, hl, hk]
      | some kw =>
        simp only [hk] at h
        simp at h

/-! ## Claim C1 -/

/-- C1: the claim says `make(structure)` must not fail when the
bulk-relaxation Maker is absent and that the volume-perturbation job
then consumes the raw input structure. The code instead reads
`bulk.output.structure` unconditionally (line 112 of `gruneisen.py`),
and with `bulk_relax_maker = None` the local variable `bulk` was never
bound, so flow construction dies with a `NameError`; the raw input
structure stored in `opt_struct["ground"]` is never handed to
`shrink_expand_structure`. -/
theorem claim_C1_gruneisen_bulk_absent_name_error :
    gruCfgNoBulk.make = Except.error (GruError.nameError "bulk") := rfl

/-! ## Claim C8 -/

/-- C8: with every Maker configured (and the phonon Maker exposing a
non-empty `.jobs` whose last element carries `function_kwargs`), the
Grueneisen `make` returns a flow of exactly 8 jobs in construction
order — bulk relax, volume perturbation, two constant-volume relaxes,
three phonon jobs (branches ground/plus/minus), one extraction — whose
output is the extraction job's output, and the three phonon jobs'
output filenames carry the three distinct branch-specific names. -/
theorem claim_C8_gruneisen_full_flow (cfg : BaseGruneisenMaker) (bm : GMakerCfg)
    (subs : List GruSubJob) (lastSub : GruSubJob) (kw : List (String × String))
    (hbulk : cfg.bulk_relax_maker = Option.some bm)
    (hsubs : cfg.phonon_maker.subJobs = Option.some subs)
    (hlast : subs.getLast? = Option.some lastSub)
    (hkw : lastSub.function_kwargs = Option.some kw) :
    ∃ fl, cfg.make = Except.ok fl ∧
      fl.jobs.length = 8 ∧
      fl.jobs.map GruJob.jobId = [0, 1, 2, 3, 4, 5, 6, 7] ∧
      fl.jobs.map GruJob.kindTag =
        ["bulk_relax", "shrink_expand", "const_vol_relax", "const_vol_relax",
         "phonon", "phonon", "phonon", "extract"] ∧
      fl.jobs.filterMap GruJob.phononBranch = ["ground", "plus", "minus"] ∧
      (∀ j ∈ fl.jobs, ∀ br, j.phononBranch = Option.some br →
        ∃ kwj, j.phononLastKwargs = Option.some kwj ∧
          lookupEntry kwj "filename_phonopy_yaml" = Option.some (br ++ "_phonopy.yaml")) ∧
      ("ground_phonopy.yaml" ≠ "plus_phonopy.yaml" ∧
        "ground_phonopy.yaml" ≠ "minus_phonopy.yaml" ∧
        "plus_phonopy.yaml" ≠ "minus_phonopy.yaml") ∧
      fl.output = RefV.mk 7 ["output"] := by
  obtain ⟨kwg, hg, hgl, -, -, -, -⟩ :=
    updatePhononFilenames_ok "ground" cfg.phonon_maker subs lastSub kw hsubs hlast hkw
  obtain ⟨kwp, hp, hpl, -, -, -, -⟩ :=
    updatePhononFilenames_ok "plus" cfg.phonon_maker subs lastSub kw hsubs hlast hkw
  obtain ⟨kwm, hm, hml, -, -, -, -⟩ :=
    updatePhononFilenames_ok "minus" cfg.phonon_maker subs lastSub kw hsubs hlast hkw
  unfold BaseGruneisenMaker.make
  rw [hbulk]
  simp only [hg, hp, hm, bind, Except.bind]
  refine ⟨_, rfl, rfl, rfl, rfl, rfl, ?_, by refine ⟨?_, ?_, ?_⟩ <;> decide, rfl⟩
  intro j hj br hbr
  simp only [List.mem_cons, List.not_mem_nil, or_false] at hj
  rcases hj with hj | hj | hj | hj | hj | hj | hj | hj <;> subst hj <;>
    simp only [GruJob.phononBranch, Option.some.injEq, reduceCtorEq] at hbr <;>
    subst hbr <;>
    refine ⟨_, ?_, by assumption⟩ <;>
    simp [GruJob.phononLastKwargs, List.getLast?_concat]

/-! ## Claim C10 -/

/-- C10: whenever the phonon Maker's result does not expose a non-empty
`.jobs` whose last element carries mutable `function_kwargs`, the
Grueneisen `make` raises during construction (the filename override is
applied with no exception suppression); by contrast the EOS builder's
naming decoration is best-effort: an equilibrium-relaxation maker
whose result has no `.jobs` attribute causes no error, the decoration
is simply skipped. -/
theorem claim_C10_phonon_override_not_best_effort :
    (∀ cfg : BaseGruneisenMaker, cfg.phonon_maker.lacksMutableKwargs = true →
      ∃ e, cfg.make = Except.error e) ∧
    (∀ (ecfg : CommonEosMaker) (pd : Arg) (m : MakerCfg),
      ecfg.postprocessor = Option.none → ecfg.initial_relax_maker = Option.some m →
      m.subJobCount = Option.none →
      ∃ f, (ecfg.make pd).1 = Except.ok f ∧ f.equilSubNamesDecorated = false) := by
  constructor
  · intro cfg h
    cases hbulk : cfg.bulk_relax_maker with
    | none => exact ⟨GruError.nameError "bulk", by unfold BaseGruneisenMaker.make; rw [hbulk]⟩
    | some bm =>
      obtain ⟨e, he⟩ := updatePhononFilenames_error "ground" cfg.phonon_maker h
      refine ⟨e, ?_⟩
      unfold BaseGruneisenMaker.make
      rw [hbulk]
      simp only [he, bind, Except.bind]
  · intro ecfg pd m hpp hinit hsub
    unfold CommonEosMaker.make
    rw [hpp]
    refine ⟨_, rfl, ?_⟩
    show (eosAssemble ecfg pd).decorated = false
    unfold eosAssemble
    unfold eosInitStage
    rw [hinit]
    cases hst : ecfg.static_maker <;> simp [hsub]

/-! ## Claim C2 -/

/-- C2 counterexample: with an equilibrium relaxation configured,
`number_of_frames = 3` and a postprocessor requiring 4 data points, the
claim says `make()` must raise (3 < 4); the code counts the equilibrium
relaxation job as a data point (`len(jobs["relax"])` is 4) and returns
a flow without raising. -/
theorem claim_C2_counterexample :
    eosCfgC2.number_of_frames < 4 ∧
    eosCfgC2.postprocessor =
      Option.some { typeName := "PostProcessEosEnergy", min_data_points := 4 } ∧
    (eosCfgC2.make Arg.noneArg).1.toOption.isSome = true := by
  decide

/-- C2 (amended): with a postprocessor of minimum `k` configured,
`make()` raises the configuration `ValueError` synchronously during
flow construction if and only if `number_of_frames` plus one for a
configured initial relaxation is less than `k` — the equilibrium
relaxation job counts toward the data points. -/
theorem claim_C2_min_points_check (cfg : CommonEosMaker) (pd : Arg) (pp : EOSPostProcessor)
    (hpp : cfg.postprocessor = Option.some pp) :
    (∃ msg, (cfg.make pd).1 = Except.error msg) ↔
      (if cfg.initial_relax_maker.isSome then 1 else 0) + cfg.number_of_frames <
        pp.min_data_points := by
  unfold CommonEosMaker.make
  rw [hpp]
  by_cases h : (eosAssemble cfg pd).relaxJobs.length < pp.min_data_points
  · have h' := h
    rw [eosAssemble_relax_length] at h'
    simp [h, h']
  · have h' := h
    rw [eosAssemble_relax_length] at h'
    simp [h, h']

/-- C2 witness: the amended criterion evaluated at the counterexample
configuration: 1 + 3 ≥ 4, so no error is raised. -/
theorem claim_C2_witness :
    ¬∃ msg, (eosCfgC2.make Arg.noneArg).1 = Except.error msg := by
  rw [claim_C2_min_points_check eosCfgC2 Arg.noneArg
    { typeName := "PostProcessEosEnergy", min_data_points := 4 } rfl]
  decide

/-! ## Claim C3 -/

theorem eosAssemble_job_names (cfg : CommonEosMaker) (pd : Arg) :
    ((eosAssemble cfg pd).relaxJobs ++ (eosAssemble cfg pd).staticJobs ++
        [(eosAssemble cfg pd).transJob]).map EosJob.nameOf =
      (if cfg.initial_relax_maker.isSome then ["EOS equilibrium relaxation"] else []) ++
      (List.range cfg.number_of_frames).map
        (fun k => cfg.eos_relax_maker.makerName ++ " deformation " ++ toString k) ++
      (if cfg.initial_relax_maker.isSome && cfg.static_maker.isSome then
        ["EOS equilibrium static"] else []) ++
      (match cfg.static_maker with
       | Option.some sm =>
         (List.range cfg.number_of_frames).map (fun k => sm.makerName ++ " " ++ toString k)
       | Option.none => []) ++
      ["apply strain to structure"] := by
  unfold eosAssemble
  cases hin : cfg.initial_relax_maker with
  | none =>
    cases hst : cfg.static_maker with
    | none =>
      simp [eosInitStage, hin, hst, buildFrames_relax_names, buildFrames_static_none,
        EosJob.nameOf, List.range_eq_range']
    | some sm =>
      simp [eosInitStage, hin, hst, buildFrames_relax_names, buildFrames_static_names,
        EosJob.nameOf, List.range_eq_range']
  | some m =>
    cases hst : cfg.static_maker with
    | none =>
      simp [eosInitStage, hin, hst, buildFrames_relax_names, buildFrames_static_none,
        EosJob.nameOf, List.range_eq_range']
    | some sm =>
      simp [eosInitStage, hin, hst, buildFrames_relax_names, buildFrames_static_names,
        EosJob.nameOf, List.range_eq_range']

/-- C3 counterexample: for a builder with equilibrium relaxation, static
maker, two frames and no postprocessor, the claim's order (initial
relax, initial static, perturbation job, then the frame jobs) does not
hold: the code groups jobs by type — all relax jobs, then all static
jobs, then the perturbation job last. -/
theorem claim_C3_counterexample :
    (eosCfgC3.make Arg.noneArg).1.toOption.map (fun f => f.jobs.map EosJob.nameOf) =
      Option.some
        ["EOS equilibrium relaxation", "EOS relax deformation 0", "EOS relax deformation 1",
         "EOS equilibrium static", "EOS static 0", "EOS static 1",
         "apply strain to structure"] ∧
    (eosCfgC3.make Arg.noneArg).1.toOption.map (fun f => f.jobs.map EosJob.nameOf) ≠
      Option.some
        ["EOS equilibrium relaxation", "EOS equilibrium static", "apply strain to structure",
         "EOS relax deformation 0", "EOS static 0", "EOS relax deformation 1",
         "EOS static 1"] := by
  constructor
  · decide
  · decide

/-- C3 (amended): the jobs of the returned flow are grouped by type, in
the order: equilibrium relaxation (if configured), the per-frame relax
jobs in frame order, equilibrium static (if both that and a static
maker are configured), the per-frame static jobs in frame order, then
the perturbation (apply-strain) job, then the post-processing job (if
configured); the flow output is the aggregated mapping, replaced by a
reference to the post-processing job's output when a postprocessor is
configured. -/
theorem claim_C3_job_order (cfg : CommonEosMaker) (pd : Arg) (f : EosFlow)
    (hok : (cfg.make pd).1 = Except.ok f) :
    f.jobs.map EosJob.nameOf =
      (if cfg.initial_relax_maker.isSome then ["EOS equilibrium relaxation"] else []) ++
      (List.range cfg.number_of_frames).map
        (fun k => cfg.eos_relax_maker.makerName ++ " deformation " ++ toString k) ++
      (if cfg.initial_relax_maker.isSome && cfg.static_maker.isSome then
        ["EOS equilibrium static"] else []) ++
      (match cfg.static_maker with
       | Option.some sm =>
         (List.range cfg.number_of_frames).map (fun k => sm.makerName ++ " " ++ toString k)
       | Option.none => []) ++
      ["apply strain to structure"] ++
      (if cfg.postprocessor.isSome then [cfg.name ++ " postprocessing"] else []) ∧
    (cfg.postprocessor = Option.none →
      f.output = EosOutput.mapping (cfg.aggregatedOutput pd)) ∧
    (∀ pp, cfg.postprocessor = Option.some pp →
      ∃ pid, f.output = EosOutput.jobRef (RefV.mk pid ["output"])) := by
  unfold CommonEosMaker.make at hok
  cases hpp : cfg.postprocessor with
  | none =>
    rw [hpp] at hok
    simp only [Except.ok.injEq] at hok
    subst hok
    refine ⟨?_, fun _ => rfl, fun pp h => by simp at h⟩
    have h := eosAssemble_job_names cfg pd
    simp only [hpp, Option.isSome_none, Bool.false_eq_true, ite_false, List.append_nil]
    simpa using h
  | some pp =>
    rw [hpp] at hok
    by_cases hlen : (eosAssemble cfg pd).relaxJobs.length < pp.min_data_points
    · simp [hlen] at hok
    · simp only [hlen, ite_false, Except.ok.injEq] at hok
      subst hok
      refine ⟨?_, fun h => Option.noConfusion h, fun pp' _ => ⟨_, rfl⟩⟩
      have h := eosAssemble_job_names cfg pd
      simp only [hpp, Option.isSome_some, ite_true]
      have hsplit :
          (eosAssemble cfg pd).relaxJobs ++ (eosAssemble cfg pd).staticJobs ++
            [(eosAssemble cfg pd).transJob,
             EosJob.postprocess (eosAssemble cfg pd).counter (cfg.name ++ " postprocessing")] =
          ((eosAssemble cfg pd).relaxJobs ++ (eosAssemble cfg pd).staticJobs ++
            [(eosAssemble cfg pd).transJob]) ++
          [EosJob.postprocess (eosAssemble cfg pd).counter (cfg.name ++ " postprocessing")] := by
        simp
      rw [hsplit, List.map_append, h]
      simp [EosJob.nameOf]

/-- C3 witness: the amended ordering evaluated on the counterexample
configuration. -/
theorem claim_C3_witness :
    ∃ f, (eosCfgC3.make Arg.noneArg).1 = Except.ok f ∧
      f.jobs.map EosJob.nameOf =
        ["EOS equilibrium relaxation", "EOS relax deformation 0", "EOS relax deformation 1",
         "EOS equilibrium static", "EOS static 0", "EOS static 1",
         "apply strain to structure"] := by
  cases hok : (eosCfgC3.make Arg.noneArg).1 with
  | error e =>
    have hsome : (eosCfgC3.make Arg.noneArg).1.toOption.isSome = true := by decide
    rw [hok] at hsome
    simp [Except.toOption] at hsome
  | ok f =>
    refine ⟨f, rfl, ?_⟩
    have h := (claim_C3_job_order eosCfgC3 Arg.noneArg f hok).1
    rw [h]
    rfl

/-! ## Claim C4 -/

theorem linspaceList_five (s : ℚ) :
    linspaceList (-s) s 5 = [-s, -s / 2, 0, s / 2, s] := by
  unfold linspaceList
  rw [show List.range 5 = [0, 1, 2, 3, 4] from rfl]
  simp only [List.map_cons, List.map_nil, List.cons.injEq, and_true]
  push_cast
  refine ⟨by ring, by ring, by ring, by ring, by ring⟩

theorem perturbZeroStrains_five (s : ℚ) (hs : 2 * tolZero ≤ s) :
    perturbZeroStrains [-s, -s / 2, 0, s / 2, s] (s / 2) =
      [-s, -s / 2, -(s / 4), s / 2, s] := by
  have htol : (0 : ℚ) < tolZero := by norm_num [tolZero]
  have hspos : (0 : ℚ) < s := by linarith
  have h1 : isZeroStrain (-s) = false := by
    simp only [isZeroStrain, decide_eq_false_iff_not, not_lt, abs_neg, abs_of_pos hspos]
    linarith
  have h2 : isZeroStrain (-(s / 2)) = false := by
    simp only [isZeroStrain, decide_eq_false_iff_not, not_lt, abs_neg,
      abs_of_pos (by linarith : (0 : ℚ) < s / 2)]
    linarith
  have h2' : isZeroStrain (-s / 2) = false := by
    rw [neg_div]
    exact h2
  have h3 : isZeroStrain 0 = true := by
    simp [isZeroStrain, htol]
  have h4 : isZeroStrain (s / 2) = false := by
    simp only [isZeroStrain, decide_eq_false_iff_not, not_lt,
      abs_of_pos (by linarith : (0 : ℚ) < s / 2)]
    linarith
  have h5 : isZeroStrain s = false := by
    simp only [isZeroStrain, decide_eq_false_iff_not, not_lt, abs_of_pos hspos]
    linarith
  have hfilter : List.filter isZeroStrain [-s, -s / 2, 0, s / 2, s] = [0] := by
    simp [List.filter, h1, h2', h3, h4, h5]
  have hshift : linspaceList (-1) 1 1 = [-1] := by
    unfold linspaceList
    rw [show List.range 1 = [0] from rfl]
    norm_num
  unfold perturbZeroStrains
  rw [hfilter]
  simp only [List.length_cons, List.length_nil, Nat.zero_add, one_ne_zero, ite_false,
    hshift, List.map_cons, List.map_nil]
  simp only [applyShifts, h1, h2', h3, h4, h5, Bool.false_eq_true, ite_false, ite_true]
  norm_num
  ring

theorem eosCfgC4_strainSamples :
    eosCfgC4.strainSamples = [-(1 / 20), -(1 / 40), -(1 / 80), 1 / 40, 1 / 20] := by
  have hstep : strainStep (-(1 / 20 : ℚ)) (1 / 20) 5 = (1 / 20 : ℚ) / 2 := by
    unfold strainStep
    push_cast
    norm_num
  show perturbZeroStrains (linspaceList (-(1 / 20)) (1 / 20) 5)
      (strainStep (-(1 / 20)) (1 / 20) 5) = _
  rw [linspaceList_five (1 / 20 : ℚ), hstep,
    perturbZeroStrains_five (1 / 20 : ℚ) (by norm_num [tolZero])]
  norm_num

/-- C4 counterexample: at the spec's own example (`linear_strain =
(-0.05, 0.05)`, five frames, initial relaxation configured) the
original samples are symmetric about zero, but after the zero-sample
perturbation the set is `[-1/20, -1/40, -1/80, 1/40, 1/20]`, which is
no longer symmetric: the single zero sample is shifted one-sidedly to
`-delta/2` (numpy's `linspace(-1, 1, 1)` is `[-1]`), not
"symmetrically outward". -/
theorem claim_C4_counterexample :
    ((linspaceList (-(1 / 20)) (1 / 20) 5).map (fun x => -x)).reverse =
      linspaceList (-(1 / 20)) (1 / 20) 5 ∧
    eosCfgC4.strainSamples = [-(1 / 20), -(1 / 40), -(1 / 80), 1 / 40, 1 / 20] ∧
    (eosCfgC4.strainSamples.map (fun x => -x)).reverse ≠ eosCfgC4.strainSamples := by
  refine ⟨?_, eosCfgC4_strainSamples, ?_⟩
  · rw [linspaceList_five (1 / 20 : ℚ)]
    norm_num
  · rw [eosCfgC4_strainSamples]
    intro h
    simp only [List.map_cons, List.map_nil, List.reverse_cons, List.reverse_nil,
      List.nil_append, List.cons_append, List.cons.injEq] at h
    have h1 := h.2.2.1
    norm_num at h1

/-- C4 (amended): when no initial relaxation is configured the samples
are left unchanged; when an initial relaxation is configured with
`linear_strain = (-s, s)` and five frames (so exactly the middle
sample is zero, provided `s ≥ 2e-15`), the zero sample is shifted
down by half the step to `-s/4`, and the resulting samples are all
non-zero, pairwise distinct and strictly ascending — but one-sided,
not symmetric. -/
theorem claim_C4_zero_strain_perturbation :
    (∀ cfg : CommonEosMaker, cfg.initial_relax_maker = Option.none →
      cfg.strainSamples =
        linspaceList cfg.linear_strain.1 cfg.linear_strain.2 cfg.number_of_frames) ∧
    (∀ (cfg : CommonEosMaker) (s : ℚ), cfg.initial_relax_maker.isSome = true →
      cfg.linear_strain = (-s, s) → cfg.number_of_frames = 5 → 2 * tolZero ≤ s →
      cfg.strainSamples = [-s, -s / 2, -(s / 4), s / 2, s] ∧
      (∀ x ∈ cfg.strainSamples, x ≠ 0) ∧
      List.Chain' (· < ·) cfg.strainSamples) := by
  constructor
  · intro cfg hin
    unfold CommonEosMaker.strainSamples
    rw [hin]
    rfl
  · intro cfg s hin hls hn hs
    have htol : (0 : ℚ) < tolZero := by norm_num [tolZero]
    have hspos : (0 : ℚ) < s := by linarith
    have hstep : strainStep (-s) s 5 = s / 2 := by
      unfold strainStep
      push_cast
      ring
    have hsamples : cfg.strainSamples = [-s, -s / 2, -(s / 4), s / 2, s] := by
      unfold CommonEosMaker.strainSamples
      rw [hin, hls, hn]
      simp only [ite_true]
      rw [linspaceList_five, hstep, perturbZeroStrains_five s hs]
    refine ⟨hsamples, ?_, ?_⟩
    · intro x hx
      rw [hsamples] at hx
      simp only [List.mem_cons, List.not_mem_nil, or_false] at hx
      rcases hx with hx | hx | hx | hx | hx <;> subst hx <;> intro hzero <;> nlinarith
    · rw [hsamples]
      simp only [List.chain'_cons, List.chain'_singleton, and_true]
      refine ⟨by linarith, by linarith, by linarith, by linarith⟩

/-- C4 witness: the amended statement applied to the concrete spec
example `s = 1/20`. -/
theorem claim_C4_witness :
    eosCfgC4.strainSamples = [-(1 / 20), -(1 / 40), -(1 / 80), 1 / 40, 1 / 20] ∧
    List.Chain' (· < ·) eosCfgC4.strainSamples := by
  obtain ⟨h1, -, h3⟩ := claim_C4_zero_strain_perturbation.2 eosCfgC4 (1 / 20) rfl rfl rfl
    (by norm_num [tolZero])
  refine ⟨?_, h3⟩
  rw [h1]
  norm_num

/-! ## Claim C5 -/

theorem linspaceList_six :
    linspaceList (-(1 / 20 : ℚ)) (1 / 20) 6 =
      [-(1 / 20), -(3 / 100), -(1 / 100), 1 / 100, 3 / 100, 1 / 20] := by
  unfold linspaceList
  rw [show List.range 6 = [0, 1, 2, 3, 4, 5] from rfl]
  simp only [List.map_cons, List.map_nil, List.cons.injEq, and_true]
  push_cast
  norm_num

/-- C5: for `number_of_frames = n ≥ 2` the builder generates exactly `n`
strain samples linearly spaced from `a` to `b` inclusive with step
`(b - a) / (n - 1)`, and exactly `n` deformation matrices, each the 3x3
identity scaled by `1 + strain`; concretely, for
`linear_strain = (-0.05, 0.05)`, six frames, no initial relaxation and
no static maker, the strains are `[-0.05, -0.03, -0.01, 0.01, 0.03,
0.05]` and the flow has exactly six Maker-built (relax) jobs. -/
theorem claim_C5_linspace_and_deformations :
    (∀ (a b : ℚ) (n : Nat), 2 ≤ n →
      (linspaceList a b n).length = n ∧
      (∀ i : Nat, i < n →
        (linspaceList a b n)[i]? = Option.some (a + (i : ℚ) * strainStep a b n)) ∧
      (linspaceList a b n)[0]? = Option.some a ∧
      (linspaceList a b n)[n - 1]? = Option.some b) ∧
    (∀ (cfg : CommonEosMaker) (pd : Arg),
      cfg.strainSamples.length = cfg.number_of_frames ∧
      (eosAssemble cfg pd).transJob =
        EosJob.transformations (eosInitStage cfg pd).counter (eosInitStage cfg pd).structArg
          (cfg.strainSamples.map deformationMatrix) ∧
      (cfg.strainSamples.map deformationMatrix).length = cfg.number_of_frames) ∧
    (∀ eps : ℚ, deformationMatrix eps = identityScaledBy eps) ∧
    (eosCfgC5.strainSamples = [-(1 / 20), -(3 / 100), -(1 / 100), 1 / 100, 3 / 100, 1 / 20] ∧
      (eosCfgC5.make Arg.noneArg).1.toOption.map
          (fun f => ((f.jobs.filter EosJob.isMakerJob).length, f.jobs.map EosJob.nameOf)) =
        Option.some (6,
          ["EOS relax deformation 0", "EOS relax deformation 1", "EOS relax deformation 2",
           "EOS relax deformation 3", "EOS relax deformation 4", "EOS relax deformation 5",
           "apply strain to structure"])) := by
  have hformula : ∀ (a b : ℚ) (n : Nat), ∀ i : Nat, i < n →
      (linspaceList a b n)[i]? = Option.some (a + (i : ℚ) * strainStep a b n) := by
    intro a b n i hi
    unfold linspaceList
    rw [List.getElem?_map, List.getElem?_range hi]
    simp only [Option.map_some']
    congr 1
    unfold strainStep
    ring
  refine ⟨?_, ?_, ?_, ?_, ?_⟩
  · intro a b n hn
    refine ⟨linspaceList_length a b n, hformula a b n, ?_, ?_⟩
    · rw [hformula a b n 0 (by omega)]
      norm_num
    · rw [hformula a b n (n - 1) (by omega)]
      congr 1
      have h1n : (1 : ℕ) ≤ n := by omega
      have hcast : ((n - 1 : ℕ) : ℚ) = (n : ℚ) - 1 := by
        push_cast [Nat.cast_sub h1n]
        ring
      rw [hcast]
      unfold strainStep
      have hne : ((n : ℚ) - 1) ≠ 0 := by
        have h2 : (2 : ℚ) ≤ (n : ℚ) := by exact_mod_cast hn
        intro h0
        linarith
      field_simp
  · intro cfg pd
    exact ⟨strainSamples_length cfg, rfl, by rw [List.length_map, strainSamples_length]⟩
  · intro eps
    rfl
  · show linspaceList (-(1 / 20)) (1 / 20) 6 = _
    exact linspaceList_six
  · decide

/-- C5 witness: the spacing facts applied at `a = -1/20`, `b = 1/20`,
`n = 6`. -/
theorem claim_C5_witness :
    (linspaceList (-(1 / 20 : ℚ)) (1 / 20) 6).length = 6 ∧
    (linspaceList (-(1 / 20 : ℚ)) (1 / 20) 6)[5]? = Option.some (1 / 20) := by
  obtain ⟨hlen, -, -, hlast⟩ :=
    claim_C5_linspace_and_deformations.1 (-(1 / 20)) (1 / 20) 6 (by norm_num)
  exact ⟨hlen, hlast⟩

/-! ## Claim C6 -/

theorem eosAssemble_static_length (cfg : CommonEosMaker) (pd : Arg) (sm : MakerCfg)
    (hst : cfg.static_maker = Option.some sm) :
    (eosAssemble cfg pd).staticJobs.length =
      (if cfg.initial_relax_maker.isSome then 1 else 0) + cfg.number_of_frames := by
  unfold eosAssemble
  cases hin : cfg.initial_relax_maker with
  | none => simp [eosInitStage, hin, hst, buildFrames_static_length]
  | some m =>
    simp [eosInitStage, hin, hst, buildFrames_static_length]
    omega

/-- C6: in the aggregated output, the `relax` key (and the `static` key
when a static maker is configured) holds the five parallel quantity
sequences built from one id list, so all five have equal length: the
number of jobs of that type, `number_of_frames` plus one when an
equilibrium relaxation is configured. -/
theorem claim_C6_parallel_sequence_lengths (cfg : CommonEosMaker) (pd : Arg) :
    (∀ ids : List Nat,
      (quantitySeqs ids).energy.length = ids.length ∧
      (quantitySeqs ids).volume.length = ids.length ∧
      (quantitySeqs ids).stress.length = ids.length ∧
      (quantitySeqs ids).«structure».length = ids.length ∧
      (quantitySeqs ids).dir_name.length = ids.length) ∧
    (∃ ids, lookupEntry (cfg.aggregatedOutput pd) "relax" =
        Option.some (EosOutEntryVal.quantities (quantitySeqs ids)) ∧
      ids.length =
        (if cfg.initial_relax_maker.isSome then 1 else 0) + cfg.number_of_frames) ∧
    (∀ sm, cfg.static_maker = Option.some sm →
      ∃ ids, lookupEntry (cfg.aggregatedOutput pd) "static" =
          Option.some (EosOutEntryVal.quantities (quantitySeqs ids)) ∧
        ids.length =
          (if cfg.initial_relax_maker.isSome then 1 else 0) + cfg.number_of_frames) := by
  refine ⟨fun ids => ⟨by simp [quantitySeqs], by simp [quantitySeqs], by simp [quantitySeqs],
    by simp [quantitySeqs], by simp [quantitySeqs]⟩, ?_, ?_⟩
  · refine ⟨(eosAssemble cfg pd).relaxJobs.map EosJob.jobId, ?_, ?_⟩
    · show lookupEntry (eosAssemble cfg pd).outputEntries "relax" = _
      conv_lhs => rw [eosAssemble]
      simp only [lookupEntry, List.cons_append, List.find?_cons_of_pos, Option.map_some']
      conv_rhs => rw [eosAssemble]
      simp
    · rw [List.length_map]
      exact eosAssemble_relax_length cfg pd
  · intro sm hst
    refine ⟨(eosAssemble cfg pd).staticJobs.map EosJob.jobId, ?_, ?_⟩
    · show lookupEntry (eosAssemble cfg pd).outputEntries "static" = _
      conv_lhs => rw [eosAssemble]
      simp [lookupEntry, hst]
      conv_rhs => rw [eosAssemble]
      simp [hst]
    · rw [List.length_map]
      exact eosAssemble_static_length cfg pd sm hst

/-- C6 witness: the parallel-length invariant at a concrete builder with
equilibrium relaxation, static maker and two frames. -/
theorem claim_C6_witness :
    ∃ ids, lookupEntry (eosCfgC6.aggregatedOutput Arg.noneArg) "relax" =
        Option.some (EosOutEntryVal.quantities (quantitySeqs ids)) ∧
      ids.length = 3 := by
  obtain ⟨-, ⟨ids, hl, hlen⟩, -⟩ := claim_C6_parallel_sequence_lengths eosCfgC6 Arg.noneArg
  exact ⟨ids, hl, hlen⟩

/-! ## Claim C7 -/

/-- C7 counterexample: the claim says every present key of the output
mapping — including `initial_relax` — maps to parallel sequences of
the five quantities. In the code, `initial_relax` (and
`initial_static`) map to a two-entry `{"E0", "V0"}` record (single
energy and volume scalars of the equilibrium job), not to the
five-sequence shape. -/
theorem claim_C7_counterexample :
    lookupEntry (eosCfgC7.aggregatedOutput Arg.noneArg) "initial_relax" =
      Option.some (EosOutEntryVal.scalars
        { E0 := RefV.mk 0 ["output", "output", "energy"],
          V0 := RefV.mk 0 ["output", "structure", "volume"] }) ∧
    (lookupEntry (eosCfgC7.aggregatedOutput Arg.noneArg) "initial_relax").map
        (fun v => match v with
          | EosOutEntryVal.quantities _ => true
          | EosOutEntryVal.scalars _ => false) = Option.some false := by
  constructor
  · decide
  · decide

/-- C7 (amended): `relax` (and `static`, when configured) map to the
five parallel quantity sequences; `initial_relax` (and
`initial_static`, when both stages are configured) map instead to the
scalar pair `{E0, V0}` — the equilibrium job's energy and the
equilibrium structure's volume. -/
theorem claim_C7_output_entry_shapes (cfg : CommonEosMaker) (pd : Arg) (m : MakerCfg)
    (hin : cfg.initial_relax_maker = Option.some m) :
    lookupEntry (cfg.aggregatedOutput pd) "initial_relax" =
      Option.some (EosOutEntryVal.scalars
        { E0 := RefV.mk 0 ["output", "output", "energy"],
          V0 := RefV.mk 0 ["output", "structure", "volume"] }) ∧
    (∀ sm, cfg.static_maker = Option.some sm →
      lookupEntry (cfg.aggregatedOutput pd) "initial_static" =
        Option.some (EosOutEntryVal.scalars
          { E0 := RefV.mk 1 ["output", "output", "energy"],
            V0 := RefV.mk 1 ["output", "structure", "volume"] })) ∧
    (∃ ids, lookupEntry (cfg.aggregatedOutput pd) "relax" =
      Option.some (EosOutEntryVal.quantities (quantitySeqs ids))) := by
  refine ⟨?_, ?_, ?_⟩
  · show lookupEntry (eosAssemble cfg pd).outputEntries "initial_relax" = _
    conv_lhs => rw [eosAssemble]
    cases hst : cfg.static_maker with
    | none => simp [lookupEntry, eosInitStage, hin, hst]
    | some sm => simp [lookupEntry, eosInitStage, hin, hst]
  · intro sm hst
    show lookupEntry (eosAssemble cfg pd).outputEntries "initial_static" = _
    conv_lhs => rw [eosAssemble]
    simp [lookupEntry, eosInitStage, hin, hst]
  · refine ⟨(eosAssemble cfg pd).relaxJobs.map EosJob.jobId, ?_⟩
    show lookupEntry (eosAssemble cfg pd).outputEntries "relax" = _
    conv_lhs => rw [eosAssemble]
    simp only [lookupEntry, List.cons_append, List.find?_cons_of_pos, Option.map_some']
    conv_rhs => rw [eosAssemble]
    simp

/-- C7 witness: the amended shape statement at a concrete builder with
both equilibrium stages configured. -/
theorem claim_C7_witness :
    lookupEntry (eosCfgC7.aggregatedOutput Arg.noneArg) "initial_static" =
      Option.some (EosOutEntryVal.scalars
        { E0 := RefV.mk 1 ["output", "output", "energy"],
          V0 := RefV.mk 1 ["output", "structure", "volume"] }) :=
  (claim_C7_output_entry_shapes eosCfgC7 Arg.noneArg
    { makerName := "equil relax" } rfl).2.1 { makerName := "EOS static" } rfl

/-! ## Claim C9 -/

theorem make_snd (cfg : CommonEosMaker) (pd : Arg) :
    (cfg.make pd).2 = { cfg with eos_relax_maker := (eosAssemble cfg pd).makerAfter } := by
  unfold CommonEosMaker.make
  cases hpp : cfg.postprocessor with
  | none => rfl
  | some pp =>
    by_cases h : (eosAssemble cfg pd).relaxJobs.length < pp.min_data_points
    · simp [h]
    · simp [h]

/-- C9 counterexample: with `_store_transformation_information = True`
and a relax maker exposing `write_additional_data`, `make()` mutates
the injected maker in place: after the call its
`write_additional_data` holds the `transformations:json` entry of the
last frame, so the builder's configuration is not left unchanged. -/
theorem claim_C9_counterexample :
    (eosCfgC9.make Arg.noneArg).2.eos_relax_maker.write_additional_data =
      Option.some [("transformations:json", RefV.mk 0 ["output", "2"])] ∧
    eosCfgC9.eos_relax_maker.write_additional_data = Option.some [] ∧
    (eosCfgC9.make Arg.noneArg).2 ≠ eosCfgC9 := by
  have h1 : (eosCfgC9.make Arg.noneArg).2.eos_relax_maker.write_additional_data =
      Option.some [("transformations:json", RefV.mk 0 ["output", "2"])] := by decide
  refine ⟨h1, rfl, ?_⟩
  intro h
  rw [h] at h1
  exact absurd h1 (by decide)

/-- C9 (amended): the only state `make()` can mutate is the injected
relax maker's `write_additional_data` dict; with
`_store_transformation_information = False` (the default), or when the
maker does not expose that attribute, the builder's configuration is
left completely unchanged. -/
theorem claim_C9_mutation_scope (cfg : CommonEosMaker) (pd : Arg) :
    (∃ w, (cfg.make pd).2 =
      { cfg with eos_relax_maker :=
          { cfg.eos_relax_maker with write_additional_data := w } }) ∧
    (cfg.store_transformation_information = false → (cfg.make pd).2 = cfg) ∧
    (cfg.eos_relax_maker.write_additional_data = Option.none → (cfg.make pd).2 = cfg) := by
  have hsnd := make_snd cfg pd
  refine ⟨?_, ?_, ?_⟩
  · refine ⟨(buildFrames cfg.eos_relax_maker.makerName cfg.static_maker
        cfg.store_transformation_information (eosInitStage cfg pd).counter
        (eosInitStage cfg pd).prevDirArg 0 cfg.number_of_frames
        ((eosInitStage cfg pd).counter + 1)
        cfg.eos_relax_maker.write_additional_data).2.2.1, ?_⟩
    rw [hsnd]
    rfl
  · intro hstore
    rw [hsnd]
    have hm : (eosAssemble cfg pd).makerAfter = cfg.eos_relax_maker := by
      conv_lhs => rw [eosAssemble]
      rw [hstore, buildFrames_wad_not_store]
    rw [hm]
  · intro hwad
    rw [hsnd]
    have hm : (eosAssemble cfg pd).makerAfter = cfg.eos_relax_maker := by
      conv_lhs => rw [eosAssemble]
      rw [hwad, buildFrames_wad_none, ← hwad]
    rw [hm]

/-- C9 witness: with the default `_store_transformation_information =
False`, a concrete builder's configuration is unchanged by `make()`. -/
theorem claim_C9_witness : (eosCfgC9w.make Arg.noneArg).2 = eosCfgC9w :=
  (claim_C9_mutation_scope eosCfgC9w Arg.noneArg).2.1 rfl

/-! ## Witnesses for the Grueneisen claims -/

/-- C8 witness: the full-flow statement at a concrete fully configured
builder. -/
theorem claim_C8_witness :
    ∃ fl, gruCfgFull.make = Except.ok fl ∧ fl.jobs.length = 8 ∧
      fl.jobs.filterMap GruJob.phononBranch = ["ground", "plus", "minus"] := by
  obtain ⟨fl, hok, hlen, -, -, hbr, -⟩ := claim_C8_gruneisen_full_flow gruCfgFull
    { makerName := "bulk relax" } [{ function_kwargs := Option.some [] }]
    { function_kwargs := Option.some [] } [] rfl rfl rfl rfl
  exact ⟨fl, hok, hlen, hbr⟩

/-- C10 witness: a phonon Maker whose last sub-job has
`function_kwargs = None` makes the Grueneisen `make` raise, while an
EOS equilibrium maker without a `.jobs` attribute is handled
best-effort. -/
theorem claim_C10_witness :
    (∃ e, gruCfgBadPhonon.make = Except.error e) ∧
    (∃ f, (eosCfgC10.make Arg.noneArg).1 = Except.ok f ∧
      f.equilSubNamesDecorated = false) :=
  ⟨claim_C10_phonon_override_not_best_effort.1 gruCfgBadPhonon rfl,
   claim_C10_phonon_override_not_best_effort.2 eosCfgC10 Arg.noneArg
     { makerName := "equil relax", subJobCount := Option.none } rfl rfl rfl⟩

end Atomate2
